import Mathlib

/-!
Verification of the face-check-in component (`check-in.component.ts`,
`api.service.ts`, `face-detection.service.ts`) of duongoo/face-app.

The component is single-threaded JavaScript: all handlers run on one event
loop, suspending only at `await` points.  We embed it in two complementary
ways:

* the straight-line handlers (`handleCheckIn`, `handleFileCheckIn`,
  `handleRegistrationSubmit`, `processSelectedFile`,
  `setResultFromApiResponse`) become pure functions from the component
  state and the outcome of the single awaited network call to the settled
  state, together with the list of effects (loading-flag writes, loop
  stop/start, the network call itself) in the order the code performs them;

* the camera detection loop (`startFaceDetectionLoop` / `detectFace` /
  the 3000 ms auto-submit timer / `toggleMode` / `stopFaceDetectionLoop`)
  becomes a small-step event system `lstep`: each event is one event-loop
  turn (an interval tick, the resumption of a suspended `detectFace`, the
  firing of the `setTimeout` callback, the settling of an in-flight
  check-in, or a user call), running the corresponding synchronous code
  up to its next suspension point.
-/

namespace FaceApp

/-- `currentMode : 'camera' | 'file'` of the component. -/
inductive Mode
  | camera
  | file
deriving DecidableEq

/-- The `customer` object of a backend reply, as far as the component reads
it: `res.customer?.name` and `res.customer?.distance` are only interpolated
into a message string, so we keep both in their rendered string form. -/
structure Customer where
  name : String
  distance : String
deriving DecidableEq

/-- `ApiResponse` of `api.service.ts`:
`{ success: boolean; message?: string; customer?: T }`. -/
structure ApiResponse where
  success : Bool
  message : Option String
  customer : Option Customer
deriving DecidableEq

/-- How an awaited `apiService` call can reject, following `postForm`:
a non-OK response with a JSON body throws `{ status, body }`, a non-OK
response without JSON throws `{ status, statusText }` (no `body` field),
and `fetch` itself can reject with a network error (no `body` either). -/
inductive ApiError
  | httpJson (status : Nat) (body : ApiResponse)
  | httpNoJson (status : Nat)
  | network
deriving DecidableEq

/-- The settled outcome of one awaited `apiService.checkInWithDescriptor`
(or `registerCustomer`) call: the resolved `ApiResponse`, or the thrown
error. -/
abbrev CheckInOutcome := Except ApiError ApiResponse

/-- JavaScript `x || d` on an optional string: the empty string and a
missing field are both falsy. -/
def truthyOr (m : Option String) (d : String) : String :=
  match m with
  | some s => if s = "" then d else s
  | none => d

/-- JavaScript string interpolation of `res.customer?.name` when `customer`
is absent renders the literal text `undefined`. -/
def undefinedStr (o : Option String) : String :=
  match o with
  | some s => s
  | none => "undefined"

/-- The user-visible string produced by `setResultFromApiResponse`:
`res && res.success` formats the success template around
`res.customer?.name` and `res.customer?.distance`; otherwise
`res?.message || 'Check-in thất bại!'`. -/
def resultMessageOfResponse (res : Option ApiResponse) : String :=
  match res with
  | some r =>
    if r.success then
      "Check-in thành công! User :  "
        ++ undefinedStr (r.customer.map Customer.name)
        ++ " -- distance : "
        ++ undefinedStr (r.customer.map Customer.distance)
    else truthyOr r.message "Check-in thất bại!"
  | none => truthyOr none "Check-in thất bại!"

/-- Message of `handleCheckIn`'s missing-element early return. -/
def noVideoMsg : String := "Lỗi: Không tìm thấy yếu tố video hoặc canvas."

/-- Message of `handleCheckIn`'s no-face early return. -/
def noFaceCameraMsg : String := "Chưa phát hiện được khuôn mặt từ camera."

/-- Message of `handleFileCheckIn`'s empty-descriptor early return. -/
def noFaceFileMsg : String := "Chưa phát hiện được khuôn mặt trong ảnh."

/-- Generic transport-failure message of both check-in catch blocks. -/
def apiConnErrorMsg : String := "Lỗi kết nối API!"

/-- The message chosen by `handleCheckIn`'s catch block:
`err.body && err.body.message` (JS truthiness, so a missing or empty
message falls through) shows the server message, else the generic one. -/
def catchMessage (e : ApiError) : String :=
  match e with
  | .httpJson _ body =>
    match body.message with
    | some m => if m = "" then apiConnErrorMsg else m
    | none => apiConnErrorMsg
  | .httpNoJson _ => apiConnErrorMsg
  | .network => apiConnErrorMsg

/-- `registrationStatus : 'idle' | 'success' | 'error' | 'info'`. -/
inductive RegStatus
  | idle
  | success
  | error
  | info
deriving DecidableEq

/-- The component fields of `CheckInComponent` that the handlers read or
write.  `selectedFile` / `registrationFile` keep only the file's name
(`File` objects are otherwise opaque to the component), a descriptor is its
list of (quantised) entries — only length and identity matter to the
component — and `detectionInterval` records whether the interval handle is
set. -/
structure CState where
  loading : Bool
  loaddingModels : Bool
  checkInResult : String
  faceValid : Bool
  faceDetecting : Bool
  currentMode : Mode
  selectedFile : Option String
  selectedDescriptor : List Int
  detectionInterval : Bool
  timerHandleCheckin : Bool
  registrationName : String
  registrationCode : String
  registrationFile : Option String
  registrationLoading : Bool
  registrationResult : String
  registrationStatus : RegStatus
  isRegistrationDisabled : Bool
deriving DecidableEq

/-- `startFaceDetectionLoop`: clears any previous interval and installs a
fresh 100 ms interval; on the state we track only that the handle is set. -/
def startFaceDetectionLoop (s : CState) : CState :=
  { s with detectionInterval := true }

/-- `stopFaceDetectionLoop`: clears the interval handle if set, nulls it,
and unconditionally resets `faceValid`. -/
def stopFaceDetectionLoop (s : CState) : CState :=
  { s with detectionInterval := false, faceValid := false }

/-- One observable effect of a check-in handler, in program order:
loading-flag writes, detection-loop stop/start, and the network call
(carrying the descriptor it submits). -/
inductive Ev
  | setLoading (v : Bool)
  | stopLoop
  | startLoop
  | netCall (descriptor : List Int)
deriving DecidableEq

/-- `setResultFromApiResponse` applied to the component state. -/
def setResultFromApiResponse (s : CState) (res : Option ApiResponse) : CState :=
  { s with checkInResult := resultMessageOfResponse res }

/-- `handleCheckIn`: guards (elements present, `faceValid`), then
`setLoading(true)`, `stopFaceDetectionLoop()`, the awaited
`checkInWithDescriptor(this.selectedDescriptor)`; on resolve the result is
rendered and the loop restarted inside `try`, on reject the catch block
picks the message; the `finally` clears `loading` and restarts the loop on
every path.  `hasVideo` / `hasCanvas` say whether the ViewChild elements
exist; `out` is the settled outcome of the awaited call.  Returns the
settled state and the effect trace. -/
def handleCheckIn (hasVideo hasCanvas : Bool) (s : CState)
    (out : CheckInOutcome) : CState × List Ev :=
  if ¬hasVideo ∨ ¬hasCanvas then
    ({ s with checkInResult := noVideoMsg }, [])
  else if ¬s.faceValid then
    ({ s with checkInResult := noFaceCameraMsg }, [])
  else
    let s1 := stopFaceDetectionLoop { s with loading := true }
    match out with
    | .ok r =>
      let s2 := startFaceDetectionLoop (setResultFromApiResponse s1 (some r))
      (startFaceDetectionLoop { s2 with loading := false },
        [.setLoading true, .stopLoop, .netCall s.selectedDescriptor,
          .startLoop, .setLoading false, .startLoop])
    | .error e =>
      let s2 := { s1 with checkInResult := catchMessage e }
      (startFaceDetectionLoop { s2 with loading := false },
        [.setLoading true, .stopLoop, .netCall s.selectedDescriptor,
          .setLoading false, .startLoop])

/-- `handleFileCheckIn`: empty-descriptor guard, then `setLoading(true)`,
the awaited `checkInWithDescriptor(this.selectedDescriptor)`; on resolve
the result is rendered, on reject the catch block unconditionally shows the
generic connection-error message (it never reads `err.body`); `finally`
clears `loading`. -/
def handleFileCheckIn (s : CState) (out : CheckInOutcome) : CState × List Ev :=
  if s.selectedDescriptor = [] then
    ({ s with checkInResult := noFaceFileMsg }, [])
  else
    let s1 := { s with loading := true }
    match out with
    | .ok r =>
      ({ setResultFromApiResponse s1 (some r) with loading := false },
        [.setLoading true, .netCall s.selectedDescriptor, .setLoading false])
    | .error _ =>
      ({ s1 with checkInResult := apiConnErrorMsg, loading := false },
        [.setLoading true, .netCall s.selectedDescriptor, .setLoading false])

/-- Validation-failure message for missing name/code. -/
def regMissingFieldsMsg : String := "Vui lòng nhập đầy đủ họ tên và mã khách hàng."

/-- Validation-failure message for a missing registration image. -/
def regMissingFileMsg : String := "Vui lòng chọn ảnh khuôn mặt để đăng ký."

/-- Transient in-progress message of the registration submit. -/
def regInProgressMsg : String := "Đang đăng ký khách hàng..."

/-- Fallback success message of the registration submit. -/
def regSuccessMsg : String := "Đăng ký khách hàng thành công!"

/-- Fallback failure message of the registration submit. -/
def regFailMsg : String := "Đăng ký khách hàng thất bại!"

/-- Transport-failure message of the registration catch block. -/
def regConnErrorMsg : String := "Lỗi kết nối API đăng ký!"

/-- Outcome of the awaited `registerCustomer` call. -/
inductive RegOutcome
  | reply (r : ApiResponse)
  | thrown
deriving DecidableEq

/-- JavaScript `String.prototype.trim()`: drops leading and trailing
whitespace (embedded structurally over the character list so that it
evaluates inside proofs). -/
def jsTrim (s : String) : String :=
  ⟨((s.data.dropWhile Char.isWhitespace).reverse.dropWhile
      Char.isWhitespace).reverse⟩

/-- `handleRegistrationSubmit`: trims name and code, fails locally when
either is empty or no file is chosen (no network call), otherwise flips the
in-progress flags, awaits `registerCustomer`; on `res.success` it clears
the form fields (name, code, and the file via
`clearRegistrationFile({resetStatus:false})`), otherwise it keeps them; the
catch sets the transport message; `finally` clears the busy flags.  Returns
the settled state and the number of network calls performed. -/
def handleRegistrationSubmit (s : CState) (out : RegOutcome) : CState × Nat :=
  let name := jsTrim s.registrationName
  let code := jsTrim s.registrationCode
  if name = "" ∨ code = "" then
    ({ s with registrationStatus := .error,
              registrationResult := regMissingFieldsMsg }, 0)
  else
    match s.registrationFile with
    | none =>
      ({ s with registrationStatus := .error,
                registrationResult := regMissingFileMsg }, 0)
    | some _ =>
      let s1 := { s with isRegistrationDisabled := true,
                         registrationLoading := true,
                         registrationStatus := .info,
                         registrationResult := regInProgressMsg }
      let s2 :=
        match out with
        | .reply r =>
          if r.success then
            { s1 with registrationStatus := .success,
                      registrationResult := truthyOr r.message regSuccessMsg,
                      registrationName := "",
                      registrationCode := "",
                      registrationFile := none }
          else
            { s1 with registrationStatus := .error,
                      registrationResult := truthyOr r.message regFailMsg }
        | .thrown =>
          { s1 with registrationStatus := .error,
                    registrationResult := regConnErrorMsg }
      ({ s2 with registrationLoading := false,
                 isRegistrationDisabled := false }, 1)

/-- Outcome of the awaits of `processSelectedFile` that precede detection:
file read, image decode and canvas lookup all succeeded, or one of them
threw (the catch only logs; `finally` resets the flags). -/
inductive FilePrep
  | ok
  | thrown
deriving DecidableEq

/-- `processSelectedFile`: returns early when no file is selected;
otherwise sets the model-loading flag and clears the result, and after a
successful read/decode runs detection on the canvas: a positive detection
(`det = some d`) sets `faceValid`, stores the freshly extracted descriptor
and immediately invokes `handleFileCheckIn` (no timer is armed on this
path); a negative one only clears `faceValid`.  `finally` resets the
detecting and model-loading flags.  `out` is the outcome of the network
call `handleFileCheckIn` awaits if it is reached. -/
def processSelectedFile (s : CState) (prep : FilePrep)
    (det : Option (List Int)) (out : CheckInOutcome) : CState × List Ev :=
  match s.selectedFile with
  | none => (s, [])
  | some _ =>
    let s0 := { s with loaddingModels := true, checkInResult := "" }
    match prep with
    | .thrown =>
      ({ s0 with faceDetecting := false, loaddingModels := false }, [])
    | .ok =>
      let s1 := { s0 with faceDetecting := true }
      match det with
      | none =>
        ({ s1 with faceValid := false, faceDetecting := false,
                   loaddingModels := false }, [])
      | some d =>
        let s2 := { s1 with faceValid := true, selectedDescriptor := d }
        let r := handleFileCheckIn s2 out
        ({ r.1 with faceDetecting := false, loaddingModels := false }, r.2)

/-!
## Event-loop model of the live-mode detection machinery

Fields beyond the component's own: `inFlightDetect` counts `detectFace`
invocations currently suspended at the detection `await`; `pendingTimers`
counts `setTimeout` callbacks issued and not yet run (the component only
stores the last handle in `timerHandleCheckin`, but every issued callback
runs); `timerAwaitCheckIn` records that the timer callback is itself
suspended at `await this.handleCheckIn()` (so `timerHandleCheckin = null`
has not run yet); `checkInNetInFlight` that a check-in submission awaits
the network.  `armCount`, `checkInInvocations` and `checkInSubmissions`
are history counters instrumenting the trace (arming events, entries into
`handleCheckIn`, submissions that reached the network call). -/
structure LState where
  currentMode : Mode
  detectionInterval : Bool
  inFlightDetect : Nat
  faceValid : Bool
  faceDetecting : Bool
  selectedDescriptor : List Int
  timerHandleCheckin : Bool
  pendingTimers : Nat
  timerAwaitCheckIn : Bool
  loading : Bool
  checkInNetInFlight : Bool
  checkInResult : String
  armCount : Nat
  checkInInvocations : Nat
  checkInSubmissions : Nat
deriving DecidableEq

/-- One event-loop turn of the live-mode machinery: a 100 ms interval tick,
the resumption of a suspended `detectFace` with its detection result, the
run of a due `setTimeout` callback, the settling of an in-flight check-in
network call, or a user-initiated call. -/
inductive LEv
  | tick
  | detectDone (res : Option (List Int))
  | timerFire
  | checkInDone (out : CheckInOutcome)
  | callToggleMode (m : Mode)
  | callStopLoop
  | callStartLoop

/-- The synchronous code run by one event-loop turn, up to its next
suspension point.

* `tick`: the interval callback `() => void this.detectFace()` runs
  unconditionally (there is no in-flight guard in `detectFace`): the
  element checks pass in an operating camera session, `faceDetecting` is
  set, and the call suspends at the detection `await`.
* `detectDone res`: a suspended `detectFace` resumes: it applies
  `faceValid = !!detection`, stores the descriptor on a positive result,
  and arms the 3000 ms auto-submit timer if `!this.loading &&
  !this.timerHandleCheckin`; then `setFaceDetecting(false)`.
* `timerFire`: a due callback runs; it re-checks `!this.loading`, invokes
  `handleCheckIn` if so (whose synchronous prefix either returns early on
  `!faceValid`, or sets `loading`, stops the loop and suspends at the
  network await), and nulls `timerHandleCheckin` once `handleCheckIn`
  returns — which on the submission path is only after the call settles.
* `checkInDone out`: the suspended `handleCheckIn` resumes: renders the
  result or runs the catch block, then `finally` clears `loading` and
  restarts the loop; the timer callback then nulls `timerHandleCheckin`.
* `callToggleMode m`: `toggleMode` — sets the mode, `resetCheckInState`,
  and per direction starts camera+loop or clears file/descriptor and stops
  camera+loop.  It never touches the timer fields.
* `callStopLoop` / `callStartLoop`: direct calls of
  `stopFaceDetectionLoop` / `startFaceDetectionLoop`. -/
def lstep (s : LState) (e : LEv) : LState :=
  match e with
  | .tick =>
    if s.detectionInterval then
      { s with faceDetecting := true, inFlightDetect := s.inFlightDetect + 1 }
    else s
  | .detectDone res =>
    if s.inFlightDetect = 0 then s
    else
      match res with
      | some d =>
        let s1 := { s with inFlightDetect := s.inFlightDetect - 1,
                           faceValid := true, selectedDescriptor := d }
        if ¬s1.loading ∧ ¬s1.timerHandleCheckin then
          { s1 with timerHandleCheckin := true,
                    pendingTimers := s1.pendingTimers + 1,
                    armCount := s1.armCount + 1,
                    faceDetecting := false }
        else { s1 with faceDetecting := false }
      | none =>
        { s with inFlightDetect := s.inFlightDetect - 1,
                 faceValid := false, faceDetecting := false }
  | .timerFire =>
    if s.pendingTimers = 0 then s
    else
      let s0 := { s with pendingTimers := s.pendingTimers - 1 }
      if s0.loading then { s0 with timerHandleCheckin := false }
      else
        let s1 := { s0 with checkInInvocations := s0.checkInInvocations + 1 }
        if ¬s1.faceValid then
          { s1 with checkInResult := noFaceCameraMsg,
                    timerHandleCheckin := false }
        else
          { s1 with loading := true, detectionInterval := false,
                    faceValid := false, checkInNetInFlight := true,
                    timerAwaitCheckIn := true,
                    checkInSubmissions := s1.checkInSubmissions + 1 }
  | .checkInDone out =>
    if ¬s.checkInNetInFlight then s
    else
      let msg :=
        match out with
        | .ok r => resultMessageOfResponse (some r)
        | .error e => catchMessage e
      let s1 := { s with checkInResult := msg, checkInNetInFlight := false,
                         loading := false, detectionInterval := true }
      if s1.timerAwaitCheckIn then
        { s1 with timerHandleCheckin := false, timerAwaitCheckIn := false }
      else s1
  | .callToggleMode m =>
    let s1 := { s with currentMode := m, checkInResult := "",
                       faceValid := false, faceDetecting := false }
    match m with
    | .camera => { s1 with detectionInterval := true }
    | .file =>
      { s1 with selectedDescriptor := [], detectionInterval := false,
                faceValid := false }
  | .callStopLoop =>
    { s with detectionInterval := false, faceValid := false }
  | .callStartLoop =>
    { s with detectionInterval := true }

/-- Run a sequence of event-loop turns. -/
def lrun (s : LState) : List LEv → LState
  | [] => s
  | e :: es => lrun (lstep s e) es

/-- The component right after `ngAfterViewInit` in the default camera mode:
the detection interval is installed and everything else is at its initial
value. -/
def initLState : LState :=
  { currentMode := .camera, detectionInterval := true, inFlightDetect := 0,
    faceValid := false, faceDetecting := false, selectedDescriptor := [],
    timerHandleCheckin := false, pendingTimers := 0,
    timerAwaitCheckIn := false, loading := false,
    checkInNetInFlight := false, checkInResult := "", armCount := 0,
    checkInInvocations := 0, checkInSubmissions := 0 }

/-- Inductive invariant of the live-mode event system: at most one timer
callback is outstanding, the stored handle is truthy whenever one is, a
timer callback suspended in `handleCheckIn` owns the (sole) handle with no
further callback pending, an in-flight submission implies the loading
flag, and check-in invocations plus the outstanding callback never exceed
the arming events. -/
def LInv (s : LState) : Prop :=
  s.pendingTimers ≤ 1 ∧
  (s.timerHandleCheckin = false → s.pendingTimers = 0) ∧
  (s.timerAwaitCheckIn = true →
    s.timerHandleCheckin = true ∧ s.pendingTimers = 0) ∧
  (s.checkInNetInFlight = true → s.loading = true) ∧
  s.checkInInvocations + s.pendingTimers ≤ s.armCount

/-- Every event-loop turn preserves the invariant. -/
theorem LInv_preserved :
    ∀ (s : LState) (e : LEv), LInv s → LInv (lstep s e) := by
  rintro ⟨cm, di, ifd, fv, fd, sd, th, pt, ta, ld, cn, cr, ac, ci, cs⟩ e h
  simp only [LInv] at h ⊢
  cases e with
  | tick =>
    cases di <;> simp_all [lstep]
  | detectDone res =>
    rcases res with _ | d <;> cases th <;> cases ta <;> cases ld <;>
      simp_all [lstep] <;> (try split_ifs) <;> (try simp_all) <;> omega
  | timerFire =>
    cases th <;> cases ta <;> cases ld <;> cases fv <;>
      simp_all [lstep] <;> (try split_ifs) <;> (try simp_all) <;> omega
  | checkInDone out =>
    cases th <;> cases ta <;> cases ld <;> cases cn <;>
      simp_all [lstep] <;> (try split_ifs) <;> (try simp_all) <;> omega
  | callToggleMode m =>
    cases m <;> simp_all [lstep]
  | callStopLoop =>
    simp_all [lstep]
  | callStartLoop =>
    simp_all [lstep]

/-- The invariant holds along every run from an invariant state. -/
theorem LInv_lrun (tr : List LEv) :
    ∀ s : LState, LInv s → LInv (lrun s tr) := by
  induction tr with
  | nil => intro s h; exact h
  | cons e es ih => intro s h; exact ih (lstep s e) (LInv_preserved s e h)

/-- The initial state satisfies the invariant. -/
theorem LInv_init : LInv initLState := by
  simp [LInv, initLState]

/-- A component state with every field at its declared initial value
(camera mode, detection interval installed as after `ngAfterViewInit`). -/
def sampleState : CState :=
  { loading := false, loaddingModels := false, checkInResult := "",
    faceValid := false, faceDetecting := false, currentMode := .camera,
    selectedFile := none, selectedDescriptor := [],
    detectionInterval := true, timerHandleCheckin := false,
    registrationName := "", registrationCode := "", registrationFile := none,
    registrationLoading := false, registrationResult := "",
    registrationStatus := .idle, isRegistrationDisabled := false }

/-- `a` occurs strictly before `b` in the effect list `l`. -/
def eventBefore (a b : Ev) (l : List Ev) : Prop :=
  ∃ i j : Nat, i < j ∧ l[i]? = some a ∧ l[j]? = some b

/-- A live camera session that has just validated a face. -/
def liveState : CState :=
  { sampleState with faceValid := true, selectedDescriptor := [3] }

/-- A registration form with a blank-after-trim name and a chosen image. -/
def blankNameRegState : CState :=
  { sampleState with registrationName := "  ", registrationFile := some "face.jpg" }

/-- A file-mode session with an image selected. -/
def fileState : CState :=
  { sampleState with selectedFile := some "a.png" }

/-- Claim C1: the claim that at most one detection attempt is ever in flight —
that a 100 ms tick firing while the previous `detectFace` has not returned
is skipped — is FALSE of the code: the interval callback
`() => void this.detectFace()` calls `detectFace` unconditionally and
`detectFace` has no in-flight guard (`faceDetecting` is set but never
checked).  Concretely, two ticks of the initial camera session with a slow
detection leave two `detectFace` calls suspended at the detection await. -/
theorem C1_counterexample :
    (lrun initLState [.tick, .tick]).inFlightDetect = 2 ∧
    ¬ (∀ tr : List LEv, (lrun initLState tr).inFlightDetect ≤ 1) := by
  refine ⟨by decide, fun h => absurd (h [.tick, .tick]) (by decide)⟩

/-- C1 amended: while the detection interval is active, every tick starts
another `detectFace` attempt regardless of how many are already in flight
— a tick is never skipped, so attempts overlap whenever detection is
slower than the 100 ms period. -/
theorem C1_amended_tick_never_skipped (s : LState)
    (h : s.detectionInterval = true) :
    (lstep s .tick).inFlightDetect = s.inFlightDetect + 1 := by
  simp [lstep, h]

/-- Witness for the amended C1 at a state with one attempt in flight. -/
theorem C1_amended_witness :
    (lstep { initLState with inFlightDetect := 1 } .tick).inFlightDetect =
      ({ initLState with inFlightDetect := 1 } : LState).inFlightDetect + 1 :=
  C1_amended_tick_never_skipped { initLState with inFlightDetect := 1 } rfl

/-- Claim C2: the claim that `toggleMode` (in either direction) clears the
descriptor buffer and cancels a pending auto-submit trigger is FALSE:
`toggleMode` never touches `timerHandleCheckin` and clears
`selectedDescriptor` only when switching to file mode.  In the claim's own
scenario — positive detection arms the trigger at t=0, mode is switched at
t=1000 ms — the trigger survives the switch; here, after switching (back)
to camera mode, a further positive detection re-validates the face and the
trigger fires a full network check-in at t=3000 ms. -/
theorem C2_counterexample :
    (lrun initLState
        [.tick, .detectDone (some [1]), .callToggleMode .camera]).timerHandleCheckin
      = true ∧
    (lrun initLState
        [.tick, .detectDone (some [1]), .callToggleMode .camera]).selectedDescriptor
      = [1] ∧
    (lrun initLState
        [.tick, .detectDone (some [1]), .callToggleMode .camera,
          .tick, .detectDone (some [1]), .timerFire]).checkInSubmissions = 1 := by
  refine ⟨by decide, by decide, by decide⟩

/-- C2 amended: `toggleMode` resets the result message and the
face-valid/detecting flags in both directions, clears the descriptor
buffer only when switching to file mode (switching to camera preserves
it), and never cancels a pending auto-submit trigger: the timer fields are
preserved in both directions, so a trigger armed before the switch can
still fire afterwards. -/
theorem C2_amended_toggleMode_behaviour (s : LState) :
    (lstep s (.callToggleMode .camera)).timerHandleCheckin
        = s.timerHandleCheckin ∧
    (lstep s (.callToggleMode .file)).timerHandleCheckin
        = s.timerHandleCheckin ∧
    (lstep s (.callToggleMode .camera)).pendingTimers = s.pendingTimers ∧
    (lstep s (.callToggleMode .file)).pendingTimers = s.pendingTimers ∧
    (lstep s (.callToggleMode .camera)).selectedDescriptor
        = s.selectedDescriptor ∧
    (lstep s (.callToggleMode .file)).selectedDescriptor = [] ∧
    (lstep s (.callToggleMode .camera)).faceValid = false ∧
    (lstep s (.callToggleMode .file)).faceValid = false ∧
    (lstep s (.callToggleMode .camera)).checkInResult = "" ∧
    (lstep s (.callToggleMode .file)).checkInResult = "" := by
  simp [lstep]

/-- Claim C4: the claim that a generation counter makes an in-flight detection
attempt ineffective after `stopFaceDetectionLoop` is FALSE: no generation
counter exists, and an attempt that was suspended at the detection await
when the loop was stopped still applies its result when it resumes —
here it sets `faceValid`, overwrites the descriptor buffer and arms the
auto-submit trigger while the loop is stopped. -/
theorem C4_counterexample :
    (lrun initLState
        [.tick, .callStopLoop, .detectDone (some [7])]).detectionInterval
      = false ∧
    (lrun initLState [.tick, .callStopLoop, .detectDone (some [7])]).faceValid
      = true ∧
    (lrun initLState
        [.tick, .callStopLoop, .detectDone (some [7])]).selectedDescriptor
      = [7] ∧
    (lrun initLState
        [.tick, .callStopLoop, .detectDone (some [7])]).pendingTimers = 1 := by
  refine ⟨by decide, by decide, by decide, by decide⟩

/-- C4 amended: `stopFaceDetectionLoop` is idempotent — a second stop is a
no-op — but no generation counter exists: a detection attempt still in
flight when stop is called continues to mutate shared state when it
resumes, setting `faceValid := true` and overwriting the descriptor buffer
on a positive result. -/
theorem C4_amended_stop_idempotent_no_generation (s : LState) (d : List Int)
    (h : 0 < s.inFlightDetect) :
    lstep (lstep s .callStopLoop) .callStopLoop = lstep s .callStopLoop ∧
    (lstep (lstep s .callStopLoop) (.detectDone (some d))).faceValid = true ∧
    (lstep (lstep s .callStopLoop) (.detectDone (some d))).selectedDescriptor
      = d := by
  have hne : s.inFlightDetect ≠ 0 := by omega
  refine ⟨rfl, ?_, ?_⟩ <;>
    · simp only [lstep]
      split
      · rename_i hc
        exact absurd hc hne
      · split <;> rfl

/-- Witness for the amended C4 at a state with one attempt in flight. -/
theorem C4_amended_witness :
    lstep (lstep { initLState with inFlightDetect := 1 } .callStopLoop)
        .callStopLoop
      = lstep { initLState with inFlightDetect := 1 } .callStopLoop ∧
    (lstep (lstep { initLState with inFlightDetect := 1 } .callStopLoop)
        (.detectDone (some [7]))).faceValid = true ∧
    (lstep (lstep { initLState with inFlightDetect := 1 } .callStopLoop)
        (.detectDone (some [7]))).selectedDescriptor = [7] :=
  C4_amended_stop_idempotent_no_generation
    { initLState with inFlightDetect := 1 } [7] (by decide)

/-- Claim C5: confirmed — `handleFileCheckIn` with an empty descriptor buffer
returns after setting the local no-face-detected message: it performs no
effect at all (empty effect trace, hence zero network calls) and leaves
the loading flag exactly as it was. -/
theorem C5_empty_descriptor_fails_locally (s : CState) (out : CheckInOutcome)
    (h : s.selectedDescriptor = []) :
    handleFileCheckIn s out = ({ s with checkInResult := noFaceFileMsg }, []) ∧
    (handleFileCheckIn s out).1.loading = s.loading := by
  simp [handleFileCheckIn, h]

/-- Witness for C5 at the initial state and a network-rejection outcome. -/
theorem C5_witness :
    handleFileCheckIn sampleState (.error .network)
        = ({ sampleState with checkInResult := noFaceFileMsg }, []) ∧
    (handleFileCheckIn sampleState (.error .network)).1.loading
        = sampleState.loading :=
  C5_empty_descriptor_fails_locally sampleState (.error .network) rfl

/-- Claim C3: confirmed — along every event sequence of a live session from the
initial state: at most one auto-submit `setTimeout` callback is ever
outstanding (`detectFace` arms one only when `!this.loading &&
!this.timerHandleCheckin`); invocations of `handleCheckIn` by the trigger
never exceed arming events (each armed callback runs once and re-checks
before invoking), so the trigger fires check-in at most once per arming
event; and any event-loop turn that invokes `handleCheckIn` starts from a
state where the loading flag is down and no prior check-in submission is
in flight — the flag is checked both when arming and again when the
trigger fires. -/
theorem C3_auto_submit_invariants (tr : List LEv) :
    (lrun initLState tr).pendingTimers ≤ 1 ∧
    (lrun initLState tr).checkInInvocations ≤ (lrun initLState tr).armCount ∧
    (∀ e : LEv,
      (lrun initLState tr).checkInInvocations
          < (lstep (lrun initLState tr) e).checkInInvocations →
        (lrun initLState tr).loading = false ∧
        (lrun initLState tr).checkInNetInFlight = false) := by
  have hinv := LInv_lrun tr initLState LInv_init
  generalize hgen : lrun initLState tr = s at hinv ⊢
  obtain ⟨cm, di, ifd, fv, fd, sd, th, pt, ta, ld, cn, cr, ac, ci, cs⟩ := s
  simp only [LInv] at hinv
  obtain ⟨h1, h2, h3, h4, h5⟩ := hinv
  refine ⟨h1, show ci ≤ ac by omega, ?_⟩
  intro e he
  cases e with
  | tick =>
    cases di <;> simp_all [lstep]
  | detectDone res =>
    rcases res with _ | d <;> cases th <;> cases ld <;>
      simp_all [lstep] <;> (try split_ifs at he) <;> simp_all
  | timerFire =>
    cases ld <;> cases cn <;> cases fv <;> simp_all [lstep] <;>
      (try split_ifs at he) <;> simp_all <;> omega
  | checkInDone out =>
    cases cn <;> cases ta <;> simp_all [lstep]
  | callToggleMode m =>
    cases m <;> simp_all [lstep]
  | callStopLoop =>
    simp_all [lstep]
  | callStartLoop =>
    simp_all [lstep]

/-- Witness for C3 on a concrete session: one positive tick arming the
trigger. -/
theorem C3_witness :
    (lrun initLState [.tick, .detectDone (some [1])]).pendingTimers ≤ 1 ∧
    (lrun initLState [.tick, .detectDone (some [1])]).checkInInvocations
        ≤ (lrun initLState [.tick, .detectDone (some [1])]).armCount ∧
    (∀ e : LEv,
      (lrun initLState [.tick, .detectDone (some [1])]).checkInInvocations
          < (lstep (lrun initLState [.tick, .detectDone (some [1])]) e).checkInInvocations →
        (lrun initLState [.tick, .detectDone (some [1])]).loading = false ∧
        (lrun initLState [.tick, .detectDone (some [1])]).checkInNetInFlight
          = false) :=
  C3_auto_submit_invariants [.tick, .detectDone (some [1])]

/-- Claim C6: the claim that an HTTP 400 JSON body's `message` is surfaced
verbatim on BOTH check-in paths is FALSE for the file path:
`handleFileCheckIn`'s catch block never reads `err.body` and always shows
the generic connection-error message.  Concretely, a backend 400 with
`{message:"face not recognized"}` on the file path yields the generic
message, not the server message. -/
theorem C6_counterexample :
    (handleFileCheckIn { sampleState with selectedDescriptor := [1, 2] }
        (.error (.httpJson 400
          { success := false, message := some "face not recognized",
            customer := none }))).1.checkInResult = apiConnErrorMsg ∧
    (handleFileCheckIn { sampleState with selectedDescriptor := [1, 2] }
        (.error (.httpJson 400
          { success := false, message := some "face not recognized",
            customer := none }))).1.checkInResult ≠ "face not recognized" := by
  refine ⟨by decide, by decide⟩

/-- C6 amended: a successful reply with customer data renders the success
string embedding the customer's name and distance (for Alice/0.32 the
message literally contains both); an HTTP 400 JSON body's message is
surfaced verbatim on the LIVE path (`handleCheckIn`); but on the file path
(`handleFileCheckIn`) every thrown error — including an HTTP 400 carrying
a message — yields the generic connection-error message. -/
theorem C6_amended_result_messages (s : CState) (m : String)
    (body : ApiResponse) (e : ApiError) (n dist : String)
    (msg : Option String)
    (hf : s.faceValid = true) (hm : body.message = some m) (hne : m ≠ "")
    (hd : s.selectedDescriptor ≠ []) :
    resultMessageOfResponse
        (some { success := true, message := msg,
                customer := some { name := n, distance := dist } })
      = "Check-in thành công! User :  " ++ n ++ " -- distance : " ++ dist ∧
    (∃ pre mid post : String,
      resultMessageOfResponse
          (some { success := true, message := none,
                  customer := some { name := "Alice", distance := "0.32" } })
        = pre ++ "Alice" ++ mid ++ "0.32" ++ post) ∧
    (handleCheckIn true true s
        (.error (.httpJson 400 body))).1.checkInResult = m ∧
    (handleFileCheckIn s (.error e)).1.checkInResult = apiConnErrorMsg := by
  refine ⟨rfl, ⟨"Check-in thành công! User :  ", " -- distance : ", "", by decide⟩,
    ?_, ?_⟩
  · simp [handleCheckIn, hf, catchMessage, hm, hne,
      startFaceDetectionLoop, stopFaceDetectionLoop]
  · simp [handleFileCheckIn, hd]

/-- Witness for the amended C6 at concrete inputs. -/
theorem C6_amended_witness :
    resultMessageOfResponse
        (some { success := true, message := none,
                customer := some { name := "Bob", distance := "0.5" } })
      = "Check-in thành công! User :  " ++ "Bob" ++ " -- distance : " ++ "0.5" ∧
    (∃ pre mid post : String,
      resultMessageOfResponse
          (some { success := true, message := none,
                  customer := some { name := "Alice", distance := "0.32" } })
        = pre ++ "Alice" ++ mid ++ "0.32" ++ post) ∧
    (handleCheckIn true true
        { sampleState with faceValid := true, selectedDescriptor := [3] }
        (.error (.httpJson 400
          { success := false, message := some "face not recognized",
            customer := none }))).1.checkInResult = "face not recognized" ∧
    (handleFileCheckIn
        { sampleState with faceValid := true, selectedDescriptor := [3] }
        (.error .network)).1.checkInResult = apiConnErrorMsg :=
  C6_amended_result_messages
    { sampleState with faceValid := true, selectedDescriptor := [3] }
    "face not recognized"
    { success := false, message := some "face not recognized",
      customer := none }
    .network "Bob" "0.5" none rfl rfl (by decide) (by decide)

/-- Claim C7: confirmed — on every submission that reaches the network call, the
loading flag is raised strictly before the call and is down again in the
settled state on every outcome (resolve, backend rejection, thrown
transport error), on both the live path (`handleCheckIn`, guarded by
`faceValid`) and the file path (`handleFileCheckIn`, guarded by a
non-empty descriptor); and a network rejection leaves the generic
transport-failure message with the flag down. -/
theorem C7_loading_lifecycle (s : CState) (out : CheckInOutcome)
    (hf : s.faceValid = true) (hd : s.selectedDescriptor ≠ []) :
    eventBefore (.setLoading true) (.netCall s.selectedDescriptor)
        (handleCheckIn true true s out).2 ∧
    (handleCheckIn true true s out).1.loading = false ∧
    (out = .error .network →
      (handleCheckIn true true s out).1.checkInResult = apiConnErrorMsg) ∧
    eventBefore (.setLoading true) (.netCall s.selectedDescriptor)
        (handleFileCheckIn s out).2 ∧
    (handleFileCheckIn s out).1.loading = false ∧
    (out = .error .network →
      (handleFileCheckIn s out).1.checkInResult = apiConnErrorMsg) := by
  have hsimp : ∀ x : CState, x.faceValid = true → x.selectedDescriptor ≠ [] →
      ∀ o : CheckInOutcome,
      (handleCheckIn true true x o).1.loading = false ∧
      (handleFileCheckIn x o).1.loading = false := by
    intro x hx hdx o
    rcases o with e | r <;>
      simp [handleCheckIn, handleFileCheckIn, hx, hdx,
        setResultFromApiResponse, startFaceDetectionLoop,
        stopFaceDetectionLoop]
  refine ⟨?_, (hsimp s hf hd out).1, ?_, ?_, (hsimp s hf hd out).2, ?_⟩
  · rcases out with e | r <;>
      exact ⟨0, 2, by omega, by simp [handleCheckIn, hf], by simp [handleCheckIn, hf]⟩
  · rintro rfl
    simp [handleCheckIn, hf, catchMessage, startFaceDetectionLoop,
      stopFaceDetectionLoop]
  · rcases out with e | r <;>
      exact ⟨0, 1, by omega, by simp [handleFileCheckIn, hd], by simp [handleFileCheckIn, hd]⟩
  · rintro rfl
    simp [handleFileCheckIn, hd]

/-- Witness for C7 on a concrete state and a network rejection. -/
theorem C7_witness :
    eventBefore (.setLoading true) (.netCall liveState.selectedDescriptor)
        (handleCheckIn true true liveState (.error .network)).2 ∧
    (handleCheckIn true true liveState (.error .network)).1.loading = false ∧
    ((.error .network : CheckInOutcome) = .error .network →
      (handleCheckIn true true liveState
          (.error .network)).1.checkInResult = apiConnErrorMsg) ∧
    eventBefore (.setLoading true) (.netCall liveState.selectedDescriptor)
        (handleFileCheckIn liveState (.error .network)).2 ∧
    (handleFileCheckIn liveState (.error .network)).1.loading = false ∧
    ((.error .network : CheckInOutcome) = .error .network →
      (handleFileCheckIn liveState
          (.error .network)).1.checkInResult = apiConnErrorMsg) :=
  C7_loading_lifecycle liveState (.error .network) rfl (by decide)

/-- Claim C8: confirmed — a registration submission with an empty trimmed name
or code, or with no image file, fails locally: the settled state only
records the error status and message, all form fields (name, code, file)
are preserved unchanged, and zero network calls are made; while a
submission passing validation that the backend answers with success
clears the name, the code and the file. -/
theorem C8_registration_validation (s : CState) (out : RegOutcome) :
    (jsTrim s.registrationName = "" ∨ jsTrim s.registrationCode = "" →
      handleRegistrationSubmit s out
        = ({ s with registrationStatus := .error,
                    registrationResult := regMissingFieldsMsg }, 0)) ∧
    (jsTrim s.registrationName ≠ "" → jsTrim s.registrationCode ≠ "" →
      s.registrationFile = none →
      handleRegistrationSubmit s out
        = ({ s with registrationStatus := .error,
                    registrationResult := regMissingFileMsg }, 0)) ∧
    (∀ r : ApiResponse, jsTrim s.registrationName ≠ "" →
      jsTrim s.registrationCode ≠ "" → s.registrationFile ≠ none →
      r.success = true →
      (handleRegistrationSubmit s (.reply r)).1.registrationName = "" ∧
      (handleRegistrationSubmit s (.reply r)).1.registrationCode = "" ∧
      (handleRegistrationSubmit s (.reply r)).1.registrationFile = none) := by
  refine ⟨?_, ?_, ?_⟩
  · intro h
    rcases h with h | h <;> simp [handleRegistrationSubmit, h]
  · intro h1 h2 h3
    simp [handleRegistrationSubmit, h1, h2, h3]
  · intro r h1 h2 h3 hsucc
    rcases hfile : s.registrationFile with _ | f
    · exact absurd hfile h3
    · simp [handleRegistrationSubmit, h1, h2, hfile, hsucc]

/-- Witness for C8: an all-blank form fails locally with the
missing-fields message and no network call. -/
theorem C8_witness :
    handleRegistrationSubmit blankNameRegState .thrown
      = ({ blankNameRegState with registrationStatus := .error,
                                  registrationResult := regMissingFieldsMsg }, 0) :=
  (C8_registration_validation blankNameRegState .thrown).1 (Or.inl (by decide))

/-- Claim C9: confirmed — on every live-mode submission that reaches the network
call, `handleCheckIn` stops the detection loop strictly before the call,
and on every settling path (resolve, backend rejection, thrown error) a
restart of the loop follows the call — the `finally` block restarts it
unconditionally — leaving the interval installed in the settled state. -/
theorem C9_loop_stopped_and_restarted (s : CState) (out : CheckInOutcome)
    (hf : s.faceValid = true) :
    eventBefore .stopLoop (.netCall s.selectedDescriptor)
        (handleCheckIn true true s out).2 ∧
    eventBefore (.netCall s.selectedDescriptor) .startLoop
        (handleCheckIn true true s out).2 ∧
    (handleCheckIn true true s out).1.detectionInterval = true := by
  rcases out with e | r
  · refine ⟨⟨1, 2, by omega, ?_, ?_⟩, ⟨2, 4, by omega, ?_, ?_⟩, ?_⟩ <;>
      simp [handleCheckIn, hf, setResultFromApiResponse,
        startFaceDetectionLoop, stopFaceDetectionLoop]
  · refine ⟨⟨1, 2, by omega, ?_, ?_⟩, ⟨2, 3, by omega, ?_, ?_⟩, ?_⟩ <;>
      simp [handleCheckIn, hf, setResultFromApiResponse,
        startFaceDetectionLoop, stopFaceDetectionLoop]

/-- Witness for C9 on a concrete state and a successful reply. -/
theorem C9_witness :
    eventBefore .stopLoop (.netCall liveState.selectedDescriptor)
        (handleCheckIn true true liveState
          (.ok { success := true, message := none, customer := none })).2 ∧
    eventBefore (.netCall liveState.selectedDescriptor) .startLoop
        (handleCheckIn true true liveState
          (.ok { success := true, message := none, customer := none })).2 ∧
    (handleCheckIn true true liveState
        (.ok { success := true, message := none,
               customer := none })).1.detectionInterval = true :=
  C9_loop_stopped_and_restarted liveState
    (.ok { success := true, message := none, customer := none }) rfl

/-- Claim C10: confirmed — in file mode, when a selected image decodes and the
detection is positive with descriptor `d`, `processSelectedFile` invokes
the check-in submission itself, within the same processing pass: its own
effect trace contains exactly one network call, carrying precisely the
descriptor just extracted; no debounce timer is armed
(`timerHandleCheckin` is untouched); and the settled state keeps the
extracted descriptor with `faceValid` set. -/
theorem C10_file_mode_auto_checkin (s : CState) (f : String)
    (d : List Int) (out : CheckInOutcome)
    (hs : s.selectedFile = some f) (hd : d ≠ []) :
    (processSelectedFile s .ok (some d) out).2.count (.netCall d) = 1 ∧
    (processSelectedFile s .ok (some d) out).2 =
      (handleFileCheckIn
        { s with loaddingModels := true, checkInResult := "",
                 faceDetecting := true, faceValid := true,
                 selectedDescriptor := d } out).2 ∧
    (processSelectedFile s .ok (some d) out).1.selectedDescriptor = d ∧
    (processSelectedFile s .ok (some d) out).1.timerHandleCheckin
        = s.timerHandleCheckin ∧
    (processSelectedFile s .ok (some d) out).1.faceValid = true := by
  rcases out with e | r <;>
    refine ⟨?_, ?_, ?_, ?_, ?_⟩ <;>
    simp [processSelectedFile, hs, handleFileCheckIn, hd,
      setResultFromApiResponse, List.count_cons, beq_iff_eq]

/-- Witness for C10 on a concrete file-mode state. -/
theorem C10_witness :
    (processSelectedFile fileState
        .ok (some [4]) (.error .network)).2.count (.netCall [4]) = 1 ∧
    (processSelectedFile fileState .ok (some [4]) (.error .network)).2 =
      (handleFileCheckIn
        { fileState with loaddingModels := true, checkInResult := "",
                         faceDetecting := true, faceValid := true,
                         selectedDescriptor := [4] } (.error .network)).2 ∧
    (processSelectedFile fileState
        .ok (some [4]) (.error .network)).1.selectedDescriptor = [4] ∧
    (processSelectedFile fileState
        .ok (some [4]) (.error .network)).1.timerHandleCheckin
        = fileState.timerHandleCheckin ∧
    (processSelectedFile fileState
        .ok (some [4]) (.error .network)).1.faceValid = true :=
  C10_file_mode_auto_checkin fileState "a.png" [4]
    (.error .network) rfl (by decide)

end FaceApp
